import Mathlib

/-!
Verification development for a mobile social-networking client backed by a
hosted relational store.  The definitions below are a shallow embedding of
the persisted schema (`schema.sql`), its triggers, and the client-side chat
and notification-badge logic (`app/chat/[id].tsx`, the home screen, and
`app/notifications.tsx`).  Ids and timestamps are modelled as strings, SQL
NULL as `Option`, and tables as lists of rows.
-/

namespace SocialApp

/-! ## Schema rows (schema.sql) -/

/-- Row of the `likes` table: `user_id` NOT NULL, `post_id` and `comment_id`
nullable, with a CHECK constraint making the target mutually exclusive. -/
structure LikeRow where
  id : String
  user_id : String
  post_id : Option String := none
  comment_id : Option String := none
deriving DecidableEq, Repr

/-- The `likes` CHECK constraint:
`(post_id IS NOT NULL AND comment_id IS NULL) OR (post_id IS NULL AND comment_id IS NOT NULL)`. -/
def likeRowCheck (r : LikeRow) : Bool :=
  (r.post_id.isSome && r.comment_id.isNone) || (r.post_id.isNone && r.comment_id.isSome)

/-- Postgres `UNIQUE(user_id, post_id)` with NULLs-distinct semantics: two
rows conflict only when the `post_id` values are equal and non-NULL. -/
def likesUniquePost (t : List LikeRow) : Prop :=
  t.Pairwise (fun a b => ¬ (a.user_id = b.user_id ∧ a.post_id = b.post_id ∧ a.post_id ≠ none))

/-- Postgres `UNIQUE(user_id, comment_id)` with NULLs-distinct semantics. -/
def likesUniqueComment (t : List LikeRow) : Prop :=
  t.Pairwise (fun a b => ¬ (a.user_id = b.user_id ∧ a.comment_id = b.comment_id ∧ a.comment_id ≠ none))

/-- Row of the `posts` table (the columns the triggers use). -/
structure PostRow where
  id : String
  user_id : String
deriving DecidableEq, Repr

/-- Row of the `comments` table (the columns the triggers use). -/
structure CommentRow where
  id : String
  post_id : String
  user_id : String
deriving DecidableEq, Repr

/-- Row of the `followers` table (the columns the triggers use). -/
structure FollowerRow where
  follower_id : String
  following_id : String
  status : String
deriving DecidableEq, Repr

/-- Row of the `notifications` table; omitted targets default to NULL and
`read` defaults to FALSE, as in the SQL column defaults. -/
structure NotifRow where
  recipient_id : String
  user_id : String
  type : String
  post_id : Option String := none
  comment_id : Option String := none
  read : Bool := false
deriving DecidableEq, Repr

/-- The `notifications` type CHECK:
`type IN ('like', 'comment', 'follow', 'follow_request')`. -/
def notifTypeCheck (r : NotifRow) : Bool :=
  r.type = "like" || r.type = "comment" || r.type = "follow" || r.type = "follow_request"

/-- The `notifications` target CHECK:
`(type IN ('like','comment') AND post_id IS NOT NULL) OR
 (type IN ('follow','follow_request') AND post_id IS NULL AND comment_id IS NULL)`. -/
def notifTargetCheck (r : NotifRow) : Bool :=
  ((r.type = "like" || r.type = "comment") && r.post_id.isSome)
  || ((r.type = "follow" || r.type = "follow_request") && r.post_id.isNone && r.comment_id.isNone)

/-- The `create_notification` trigger, branch `TG_TABLE_NAME = 'likes'`:
if `NEW.post_id IS NOT NULL` it inserts a `'like'` notification carrying the
post id for the post's author (unless self-like), otherwise it inserts a
`'like'` notification carrying only the comment id for the comment's author. -/
def createNotificationOnLike (posts : List PostRow) (comments : List CommentRow)
    (l : LikeRow) : List NotifRow :=
  match l.post_id with
  | some pid =>
      (posts.filter (fun p => p.id = pid && p.user_id ≠ l.user_id)).map
        (fun p => { recipient_id := p.user_id, user_id := l.user_id,
                    type := "like", post_id := some pid })
  | none =>
      (comments.filter (fun c => some c.id = l.comment_id && c.user_id ≠ l.user_id)).map
        (fun c => { recipient_id := c.user_id, user_id := l.user_id,
                    type := "like", comment_id := l.comment_id })

/-- The `create_notification` trigger, branch `TG_TABLE_NAME = 'comments'`. -/
def createNotificationOnComment (posts : List PostRow) (c : CommentRow) : List NotifRow :=
  (posts.filter (fun p => p.id = c.post_id && p.user_id ≠ c.user_id)).map
    (fun p => { recipient_id := p.user_id, user_id := c.user_id,
                type := "comment", post_id := some c.post_id })

/-- The `create_notification` trigger, branch `TG_TABLE_NAME = 'followers'`. -/
def createNotificationOnFollower (f : FollowerRow) : List NotifRow :=
  if f.status = "pending" then
    [{ recipient_id := f.following_id, user_id := f.follower_id, type := "follow_request" }]
  else if f.status = "accepted" then
    [{ recipient_id := f.follower_id, user_id := f.following_id, type := "follow" }]
  else []

/-- Row of the `conversations` table (the columns the client uses). -/
structure Conversation where
  id : String
  participant1_id : String
  participant2_id : String
  last_message : Option String := none
deriving DecidableEq, Repr

/-- Two conversation rows collide on the schema's
`UNIQUE(participant1_id, participant2_id)` constraint. -/
def orderedPairConflict (a b : Conversation) : Bool :=
  a.participant1_id = b.participant1_id && a.participant2_id = b.participant2_id

/-- The uniqueness the schema actually enforces on `conversations`:
no two rows agree on the ordered pair (participant1_id, participant2_id). -/
def conversationsUniqueOk (t : List Conversation) : Prop :=
  t.Pairwise (fun a b => orderedPairConflict a b = false)

/-- Two conversation rows hold the same unordered pair of participants. -/
def sameUnorderedPair (a b : Conversation) : Bool :=
  orderedPairConflict a b
  || (a.participant1_id = b.participant2_id && a.participant2_id = b.participant1_id)

/-- At most one conversation row per unordered pair of participants,
regardless of storage order. -/
def conversationsUnorderedUnique (t : List Conversation) : Prop :=
  t.Pairwise (fun a b => sameUnorderedPair a b = false)

/-! ## Client-side data model (app/chat/[id].tsx) -/

/-- Row of the `profiles` table (the columns the chat screen selects). -/
structure Profile where
  id : String
  username : String
  full_name : String
deriving DecidableEq, Repr

/-- Row of the `messages` table (the columns the chat screen uses;
`received` is the extra flag the second chat variant writes). -/
structure MessageRow where
  id : String
  conversation_id : String
  sender_id : String
  content : String
  created_at : String
  received : Bool := false
deriving DecidableEq, Repr

/-- A processed message as held in the chat screen's local state: the raw
row enriched with a total `sender` object. -/
structure Msg where
  id : String
  content : String
  created_at : String
  sender_id : String
  sender : Profile
deriving DecidableEq, Repr

/-- The hosted store as seen by the chat screen. -/
structure Db where
  profiles : List Profile
  conversations : List Conversation
  messages : List MessageRow
deriving Repr

/-- `from('profiles').select(...).eq('id', uid)` against the store. -/
def lookupProfile (db : Db) (uid : String) : Option Profile :=
  db.profiles.find? (fun p => p.id = uid)

/-- `from('conversations').select(...).eq('id', cid)` against the store. -/
def lookupConv (db : Db) (cid : String) : Option Conversation :=
  db.conversations.find? (fun c => c.id = cid)

/-- The chat screen's two-order conversation lookup:
`.or(and(participant1_id.eq.me,participant2_id.eq.other),and(participant1_id.eq.other,participant2_id.eq.me))`. -/
def findConvBetween (db : Db) (me other : String) : Option Conversation :=
  db.conversations.find? (fun c =>
    (c.participant1_id = me && c.participant2_id = other)
    || (c.participant1_id = other && c.participant2_id = me))

/-- Insert `m` into a list already sorted by `created_at`. -/
def insertByTime (m : MessageRow) : List MessageRow → List MessageRow
  | [] => [m]
  | x :: xs => if m.created_at ≤ x.created_at then m :: x :: xs else x :: insertByTime m xs

/-- Sort message rows by `created_at` ascending, modelling
`.order('created_at', ascending)`. -/
def sortByTime : List MessageRow → List MessageRow
  | [] => []
  | x :: xs => insertByTime x (sortByTime xs)

/-- `from('messages').select(...).eq('conversation_id', cid).order('created_at')`. -/
def fetchedMessages (db : Db) (cid : String) : List MessageRow :=
  sortByTime (db.messages.filter (fun m => m.conversation_id = cid))

/-! ## String helpers modelled from the JavaScript runtime -/

/-- Hexadecimal digit test matching the regex character class `[0-9a-f]`
with the `i` flag. -/
def isHexDigit (c : Char) : Bool :=
  ('0' ≤ c && c ≤ '9') || ('a' ≤ c && c ≤ 'f') || ('A' ≤ c && c ≤ 'F')

/-- Consume exactly `n` hex digits from the front of the character list. -/
def hexRun : Nat → List Char → Option (List Char)
  | 0, rest => some rest
  | _ + 1, [] => none
  | n + 1, c :: rest => if isHexDigit c then hexRun n rest else none

/-- Consume a literal dash from the front of the character list. -/
def dashRun : List Char → Option (List Char)
  | '-' :: rest => some rest
  | _ => none

/-- The chat screen's `isUUID` helper:
`/^[0-9a-f]{8}-[0-9a-f]{4}-[0-9a-f]{4}-[0-9a-f]{4}-[0-9a-f]{12}$/i.test(str)`. -/
def isUUID (s : String) : Bool :=
  match (do
    let r ← hexRun 8 s.data
    let r ← dashRun r
    let r ← hexRun 4 r
    let r ← dashRun r
    let r ← hexRun 4 r
    let r ← dashRun r
    let r ← hexRun 4 r
    let r ← dashRun r
    hexRun 12 r : Option (List Char)) with
  | some [] => true
  | _ => false

/-- Whitespace characters removed by JavaScript `String.prototype.trim`
(ASCII whitespace plus NBSP and the BOM). -/
def jsWhitespaceB (c : Char) : Bool :=
  c = ' ' || c = '\t' || c = '\n' || c = '\r'
  || c.toNat = 11 || c.toNat = 12 || c.toNat = 160 || c.toNat = 0xfeff

/-- JavaScript `String.prototype.trim`. -/
def jsTrim (s : String) : String :=
  ⟨((s.data.dropWhile jsWhitespaceB).reverse.dropWhile jsWhitespaceB).reverse⟩

/-- Does `pre` occur at the front of `l`? -/
def startsWithL : List Char → List Char → Bool
  | [], _ => true
  | _ :: _, [] => false
  | a :: as, b :: bs => a = b && startsWithL as bs

/-- Does `needle` occur anywhere in `hay`? -/
def containsSubL (needle : List Char) : List Char → Bool
  | [] => startsWithL needle []
  | c :: rest => startsWithL needle (c :: rest) || containsSubL needle rest

/-- JavaScript `hay.includes(needle)`. -/
def containsSub (hay needle : String) : Bool :=
  containsSubL needle.data hay.data

/-- A JavaScript `Error` value (its `message`). -/
structure JsError where
  message : String
deriving DecidableEq, Repr

/-- `String(error)` for an `Error` object. -/
def errString (e : JsError) : String := "Error: " ++ e.message

/-- The error classification shared by the chat screen's catch blocks:
`errorStr.includes('PGRST116') || errorStr.includes('The result contains 0 rows')`. -/
def pgrstLike (s : String) : Bool :=
  containsSub s "PGRST116" || containsSub s "The result contains 0 rows"

/-! ## Message processing (both chat screen variants) -/

/-- The fallback sender object used when a sender profile lookup returns no
row: `{id: sender_id, username: 'Unknown User', full_name: 'Unknown'}`. -/
def placeholderSender (uid : String) : Profile :=
  { id := uid, username := "Unknown User", full_name := "Unknown" }

/-- Enrich a raw message row with its sender profile, falling back to the
placeholder sender when the profile lookup returns no row. -/
def processMessage (db : Db) (m : MessageRow) : Msg :=
  { id := m.id, content := m.content, created_at := m.created_at,
    sender_id := m.sender_id,
    sender := (lookupProfile db m.sender_id).getD (placeholderSender m.sender_id) }

/-- First chat variant's fetch processing loop: rows with empty content are
skipped (`if (!message.content) continue`), the rest are enriched. -/
def processedMessagesV1 (db : Db) (raw : List MessageRow) : List Msg :=
  (raw.filter (fun m => m.content ≠ "")).map (processMessage db)

/-- Second chat variant's fetch processing loop: every row is enriched,
with no content filter. -/
def processedMessagesV2 (db : Db) (raw : List MessageRow) : List Msg :=
  raw.map (processMessage db)

/-- First chat variant's real-time INSERT handler: invalid payloads (falsy
id or content) are dropped, a payload whose id is already in the local list
is skipped, and otherwise the processed message is appended at the end. -/
def rtInsertV1 (db : Db) (msgs : List Msg) (new : MessageRow) : List Msg :=
  if new.id = "" || new.content = "" then msgs
  else if msgs.any (fun m => m.id = new.id) then msgs
  else msgs ++ [processMessage db new]

/-- Second chat variant's real-time INSERT handler: the processed message
is appended at the end unconditionally. -/
def rtInsertV2 (db : Db) (msgs : List Msg) (new : MessageRow) : List Msg :=
  msgs ++ [processMessage db new]

/-! ## fetchMessages (both chat screen variants) -/

/-- Observable outcome of one `fetchMessages` run: the last value passed to
`setMessages` (if any), the error raised inside the try block (if any), the
alert shown, the `router.replace` target, and the conversation row inserted
by the auto-create path. -/
structure FetchOutcome where
  messagesSet : Option (List Msg) := none
  thrown : Option String := none
  alert : Option String := none
  navTo : Option String := none
  insertedConv : Option Conversation := none
deriving DecidableEq, Repr

/-- The first variant's user-verification step (`.single()` on `profiles`
followed by `if (userError.code === 'PGRST116') throw ...`): only the
`PGRST116` error code is promoted to a thrown error, every other error code
is logged and ignored. -/
def verifyUserThrow (r : Except String Profile) : Option String :=
  match r with
  | .ok _ => none
  | .error code => if code = "PGRST116" then some "User not found. Please check the user ID." else none

/-- `.single()` on `profiles` under the deterministic store semantics: a
missing row surfaces as the `PGRST116` error code. -/
def profilesSingle (db : Db) (uid : String) : Except String Profile :=
  match lookupProfile db uid with
  | some p => Except.ok p
  | none => Except.error "PGRST116"

/-- First chat variant's `fetchMessages`, run against the deterministic
store semantics.  `me` is the session user id (the empty string models a
missing session), `routeId` the route parameter, `freshConvId` the id the
backend would assign to an auto-created conversation. -/
def fetchMessagesV1 (db : Db) (me routeId freshConvId : String) : FetchOutcome :=
  if isUUID routeId = false then
    match verifyUserThrow (profilesSingle db routeId) with
    | some msg => { thrown := some msg, alert := some msg }
    | none =>
      if me = "" then { messagesSet := some [] }
      else
        match findConvBetween db me routeId with
        | some conv => { messagesSet := some [], navTo := some conv.id }
        | none =>
          let newConv : Conversation :=
            { id := freshConvId, participant1_id := me, participant2_id := routeId,
              last_message := some "" }
          { messagesSet := some [], insertedConv := some newConv, navTo := some freshConvId }
  else
    match lookupConv db routeId with
    | none => { messagesSet := some [] }
    | some conv =>
      if conv.participant1_id = me || conv.participant2_id = me then
        let raw := fetchedMessages db routeId
        if raw.isEmpty then { messagesSet := some [] }
        else { messagesSet := some (processedMessagesV1 db raw) }
      else
        { thrown := some "You are not authorized to view this conversation",
          alert := some "You are not authorized to view this conversation" }

/-- Second chat variant's `fetchMessages`, run against the deterministic
store semantics.  Its catch block shows one generic alert for every error. -/
def fetchMessagesV2 (db : Db) (me routeId : String) : FetchOutcome :=
  if isUUID routeId = false then { messagesSet := some [] }
  else
    match lookupConv db routeId with
    | none =>
      { thrown := some "PGRST116",
        alert := some "Failed to load messages. Please try again." }
    | some conv =>
      if conv.participant1_id = me || conv.participant2_id = me then
        let raw := fetchedMessages db routeId
        if raw.isEmpty then { messagesSet := some [] }
        else { messagesSet := some (processedMessagesV2 db raw) }
      else
        { thrown := some "You are not authorized to view this conversation",
          alert := some "Failed to load messages. Please try again." }

/-! ## handleSend (both chat screen variants) -/

/-- Component state the send handler reads and writes. -/
structure ChatState where
  messages : List Msg
  newMessage : String
  sending : Bool
deriving DecidableEq, Repr

/-- Backend effects and UI effects of one `handleSend` run. -/
structure SendEffects where
  insertedConv : Option Conversation := none
  insertedMsg : Option MessageRow := none
  updatedLast : Option (String × String) := none
  alert : Option String := none
  retryScheduled : Bool := false
  navTo : Option String := none
deriving DecidableEq, Repr

/-- Result of one `handleSend` run: the final component state plus effects. -/
structure SendOutcome where
  state : ChatState
  eff : SendEffects
deriving DecidableEq, Repr

/-- First chat variant's catch block in `handleSend`: a `PGRST116`-looking
error string schedules one delayed recursive re-invocation of `handleSend`
and shows no alert; every other error shows a `Message Error` alert and
schedules no retry. -/
def sendCatchV1 (st : ChatState) (e : JsError) : SendOutcome :=
  if pgrstLike (errString e) then
    { state := { st with sending := false }, eff := { retryScheduled := true } }
  else
    { state := { st with sending := false },
      eff := { alert := some ("Failed to send message: " ++ e.message) } }

/-- Second chat variant's catch block in `handleSend`: every error shows an
alert and no retry is ever scheduled. -/
def sendCatchV2 (st : ChatState) (e : JsError) : SendOutcome :=
  { state := { st with sending := false },
    eff := { alert := some ("Failed to send message: " ++ e.message) } }

/-- Success tail of the first variant's `handleSend` once a conversation id
is resolved: insert the message row, clear the input, update the
conversation's last-message cache, and navigate unless the resolved id is
the route id of an existing conversation. -/
def finishSendV1 (me routeId trimmed freshMsgId : String) (st : ChatState)
    (existing : Bool) (convId : String) : SendOutcome :=
  { state := { st with newMessage := "", sending := false },
    eff := { insertedMsg := some { id := freshMsgId, conversation_id := convId,
                                   sender_id := me, content := trimmed, created_at := "" },
             updatedLast := some (convId, trimmed),
             navTo := if existing = false ∨ convId ≠ routeId then some convId else none } }

/-- First chat variant's `handleSend` under the deterministic store
semantics.  `freshConvId` and `freshMsgId` are the backend-assigned ids of
rows the run may insert. -/
def handleSendV1 (db : Db) (me routeId freshConvId freshMsgId : String)
    (st : ChatState) : SendOutcome :=
  if jsTrim st.newMessage = "" then { state := st, eff := {} }
  else
    let trimmed := jsTrim st.newMessage
    match lookupConv db routeId with
    | some _ => finishSendV1 me routeId trimmed freshMsgId st true routeId
    | none =>
      match lookupProfile db routeId with
      | none => sendCatchV1 st ⟨"User not found. Please check the user ID."⟩
      | some _ =>
        match findConvBetween db me routeId with
        | some conv => finishSendV1 me routeId trimmed freshMsgId st false conv.id
        | none =>
          let newConv : Conversation :=
            { id := freshConvId, participant1_id := me, participant2_id := routeId,
              last_message := some trimmed }
          let out := finishSendV1 me routeId trimmed freshMsgId st false freshConvId
          { out with eff := { out.eff with insertedConv := some newConv } }

/-- Success tail of the second variant's `handleSend`: the message row
carries `received := true` and navigation happens only for a conversation
that was not resolved from the route id directly. -/
def finishSendV2 (me trimmed freshMsgId : String) (st : ChatState)
    (existing : Bool) (convId : String) : SendOutcome :=
  { state := { st with newMessage := "", sending := false },
    eff := { insertedMsg := some { id := freshMsgId, conversation_id := convId,
                                   sender_id := me, content := trimmed, created_at := "",
                                   received := true },
             updatedLast := some (convId, trimmed),
             navTo := if existing = false then some convId else none } }

/-- Second chat variant's `handleSend` under the deterministic store
semantics. -/
def handleSendV2 (db : Db) (me routeId freshConvId freshMsgId : String)
    (st : ChatState) : SendOutcome :=
  if jsTrim st.newMessage = "" then { state := st, eff := {} }
  else
    let trimmed := jsTrim st.newMessage
    match lookupConv db routeId with
    | some _ => finishSendV2 me trimmed freshMsgId st true routeId
    | none =>
      match lookupProfile db routeId with
      | none => sendCatchV2 st ⟨"Invalid user or conversation ID. Please try again."⟩
      | some _ =>
        match findConvBetween db me routeId with
        | some conv => finishSendV2 me trimmed freshMsgId st false conv.id
        | none =>
          let newConv : Conversation :=
            { id := freshConvId, participant1_id := me, participant2_id := routeId,
              last_message := some trimmed }
          let out := finishSendV2 me trimmed freshMsgId st false freshConvId
          { out with eff := { out.eff with insertedConv := some newConv } }

/-! ## Home screen notification badge (global.updateNotificationBadges) -/

/-- Observable outcome of one invocation of the registered badge updater:
the value passed to `setNotifications`, whether the unread-notifications
query was issued, and the notifications table after any read-marking
update. -/
structure BadgeOutcome where
  badge : Nat
  dbQueried : Bool
  notificationsAfter : List NotifRow
deriving DecidableEq, Repr

/-- `from('notifications').select('id').eq('recipient_id', me).eq('read', false)`
followed by `.length`: the home screen's unread count. -/
def countUnread (notifs : List NotifRow) (me : String) : Nat :=
  (notifs.filter (fun n => n.recipient_id = me && n.read = false)).length

/-- `from('notifications').update({read: true}).eq('recipient_id', me).eq('read', false)`. -/
def markAllUnreadRead (notifs : List NotifRow) (me : String) : List NotifRow :=
  notifs.map (fun n =>
    if n.recipient_id = me && n.read = false then { n with read := true } else n)

/-- The badge updater the home screen registers in the global slot: with an
explicit count it sets the badge directly (and, when the count is 0, also
marks all of the current user's unread notifications as read); with no
argument it re-queries the unread count. -/
def updateNotificationBadges (notifs : List NotifRow) (me : String)
    (forceCount : Option Nat) : BadgeOutcome :=
  match forceCount with
  | some n =>
    { badge := n, dbQueried := false,
      notificationsAfter := if n = 0 then markAllUnreadRead notifs me else notifs }
  | none =>
    { badge := countUnread notifs me, dbQueried := true, notificationsAfter := notifs }

/-- The process-wide slot type: `global.updateNotificationBadges` is either
the registered function or `undefined`. -/
def BadgeSlot : Type := Option (Option Nat → BadgeOutcome)

/-- Mounting the home screen overwrites the global slot with its own badge
updater, closed over the store and the session user. -/
def mountHomeBadgeSlot (notifs : List NotifRow) (me : String) (_slot : BadgeSlot) : BadgeSlot :=
  some (updateNotificationBadges notifs me)

/-- Unmounting the home screen clears the global slot to `undefined`. -/
def unmountHomeBadgeSlot (_slot : BadgeSlot) : BadgeSlot := none

/-! ## Helper lemmas -/

/-- A list pairwise-excluding two rows that both satisfy `p` keeps at most
one row satisfying `p`. -/
theorem filter_length_le_one_of_pairwise {α : Type} {R : α → α → Prop} (p : α → Bool)
    (h : ∀ a b, R a b → p a = true → p b = true → False) :
    ∀ l : List α, l.Pairwise R → (l.filter p).length ≤ 1 := by
  intro l hl
  induction l with
  | nil => simp
  | cons x xs ih =>
    rcases List.pairwise_cons.mp hl with ⟨hx, hxs⟩
    by_cases hp : p x = true
    · have hnil : xs.filter p = [] := by
        apply List.filter_eq_nil_iff.mpr
        intro a ha hpa
        exact h x a (hx a ha) hp hpa
      simp [List.filter_cons, hp, hnil]
    · simp only [List.filter_cons, hp, if_neg, Bool.false_eq_true, not_false_iff, ite_false]
      exact ih hxs

/-- Trimming a string whose characters are all JavaScript whitespace yields
the empty string. -/
theorem jsTrim_of_all_whitespace {s : String}
    (h : ∀ c ∈ s.data, jsWhitespaceB c = true) : jsTrim s = "" := by
  unfold jsTrim
  have h1 : s.data.dropWhile jsWhitespaceB = [] := List.dropWhile_eq_nil_iff.mpr h
  rw [h1]
  rfl

/-! ## Claim theorems -/

/-- C6: every row of the `likes` table references exactly one of
{post, comment}, and under the table's two UNIQUE constraints (with
Postgres NULLs-distinct semantics) each user holds at most one like per
post and at most one like per comment. -/
theorem likes_exclusive_target_and_unique
    (t : List LikeRow)
    (hcheck : ∀ r ∈ t, likeRowCheck r = true)
    (hpost : likesUniquePost t) (hcomment : likesUniqueComment t) :
    (∀ r ∈ t, (r.post_id ≠ none ∧ r.comment_id = none)
        ∨ (r.post_id = none ∧ r.comment_id ≠ none))
    ∧ (∀ u p, (t.filter (fun r => r.user_id = u && r.post_id = some p)).length ≤ 1)
    ∧ (∀ u c, (t.filter (fun r => r.user_id = u && r.comment_id = some c)).length ≤ 1) := by
  refine ⟨?_, ?_, ?_⟩
  · intro r hr
    have hc := hcheck r hr
    unfold likeRowCheck at hc
    rcases Bool.or_eq_true_iff.mp hc with h1 | h2
    · rcases Bool.and_eq_true_iff.mp h1 with ⟨ha, hb⟩
      exact Or.inl ⟨Option.isSome_iff_ne_none.mp ha, Option.isNone_iff_eq_none.mp hb⟩
    · rcases Bool.and_eq_true_iff.mp h2 with ⟨ha, hb⟩
      exact Or.inr ⟨Option.isNone_iff_eq_none.mp ha, Option.isSome_iff_ne_none.mp hb⟩
  · intro u p
    apply filter_length_le_one_of_pairwise _ ?_ t hpost
    intro a b hR hpa hpb
    rcases Bool.and_eq_true_iff.mp hpa with ⟨hau, hap⟩
    rcases Bool.and_eq_true_iff.mp hpb with ⟨hbu, hbp⟩
    apply hR
    refine ⟨?_, ?_, ?_⟩
    · rw [decide_eq_true_eq.mp hau, decide_eq_true_eq.mp hbu]
    · rw [decide_eq_true_eq.mp hap, decide_eq_true_eq.mp hbp]
    · rw [decide_eq_true_eq.mp hap]
      simp
  · intro u c
    apply filter_length_le_one_of_pairwise _ ?_ t hcomment
    intro a b hR hpa hpb
    rcases Bool.and_eq_true_iff.mp hpa with ⟨hau, hap⟩
    rcases Bool.and_eq_true_iff.mp hpb with ⟨hbu, hbp⟩
    apply hR
    refine ⟨?_, ?_, ?_⟩
    · rw [decide_eq_true_eq.mp hau, decide_eq_true_eq.mp hbu]
    · rw [decide_eq_true_eq.mp hap, decide_eq_true_eq.mp hbp]
    · rw [decide_eq_true_eq.mp hap]
      simp

/-- Witness for C6 at a concrete two-row table and a concrete (user, post)
target. -/
theorem likes_exclusive_target_and_unique_witness :
    (([({ id := "l1", user_id := "u1", post_id := some "p1" } : LikeRow),
       { id := "l2", user_id := "u1", comment_id := some "c1" }].filter
        (fun r => r.user_id = "u1" && r.post_id = some "p1")).length ≤ 1) := by
  have h := likes_exclusive_target_and_unique
      [{ id := "l1", user_id := "u1", post_id := some "p1" },
       { id := "l2", user_id := "u1", comment_id := some "c1" }]
      (by decide)
      (by unfold likesUniquePost; decide)
      (by unfold likesUniqueComment; decide)
  exact h.2.1 "u1" "p1"

/-- A two-row conversations table holding the same two participants in
swapped storage order. -/
def convSwapExample : List Conversation :=
  [{ id := "c1", participant1_id := "A", participant2_id := "B" },
   { id := "c2", participant1_id := "B", participant2_id := "A" }]

/-- C3 counterexample: a conversations table that satisfies everything the
schema enforces (distinct primary keys and the ordered-pair UNIQUE
constraint) while holding two rows for the same unordered pair of
participants, so the schema does not guarantee at most one conversation
per unordered pair. -/
theorem conversations_unordered_unique_fails :
    convSwapExample.Pairwise (fun a b => a.id ≠ b.id)
    ∧ conversationsUniqueOk convSwapExample
    ∧ ¬ conversationsUnorderedUnique convSwapExample := by
  refine ⟨by decide, by unfold conversationsUniqueOk; decide, ?_⟩
  intro h
  unfold conversationsUnorderedUnique at h
  rcases List.pairwise_cons.mp h with ⟨h1, _⟩
  have h2 := h1 { id := "c2", participant1_id := "B", participant2_id := "A" }
      (by simp)
  revert h2
  decide

/-- C3 (amended): the schema enforces conversation uniqueness only per
ordered (participant1, participant2) pair; the chat screen's auto-create
path inserts a new conversation only after checking both participant
orders, so it preserves unordered-pair uniqueness whenever it already
held. -/
theorem conversation_creation_preserves_unordered_unique
    (db : Db) (me uid freshConvId : String)
    (hu : isUUID uid = false) (hp : lookupProfile db uid ≠ none) (hme : me ≠ "")
    (hnone : findConvBetween db me uid = none)
    (huniq : conversationsUnorderedUnique db.conversations) :
    ∃ newConv, (fetchMessagesV1 db me uid freshConvId).insertedConv = some newConv
      ∧ newConv.participant1_id = me ∧ newConv.participant2_id = uid
      ∧ conversationsUnorderedUnique (db.conversations ++ [newConv]) := by
  obtain ⟨pr, hpr⟩ := Option.ne_none_iff_exists.mp hp
  refine ⟨{ id := freshConvId, participant1_id := me, participant2_id := uid,
            last_message := some "" }, ?_, rfl, rfl, ?_⟩
  · unfold fetchMessagesV1 verifyUserThrow profilesSingle
    rw [hu]
    rw [← hpr]
    simp [hme, hnone]
  · unfold conversationsUnorderedUnique
    rw [List.pairwise_append]
    refine ⟨huniq, by simp, ?_⟩
    intro a ha b hb
    have hbe : b = { id := freshConvId, participant1_id := me, participant2_id := uid,
                     last_message := some "" } := by simpa using hb
    subst hbe
    have hfa := List.find?_eq_none.mp hnone a ha
    unfold sameUnorderedPair orderedPairConflict
    simp only [Bool.or_eq_false_iff, Bool.and_eq_false_iff]
    simp only [Bool.not_eq_true] at hfa
    rcases Bool.or_eq_false_iff.mp hfa with ⟨hfa1, hfa2⟩
    constructor
    · rcases Bool.and_eq_false_iff.mp hfa1 with h | h
      · exact Or.inl h
      · exact Or.inr h
    · rcases Bool.and_eq_false_iff.mp hfa2 with h | h
      · exact Or.inl h
      · exact Or.inr h

/-- Witness for the amended C3 on a concrete store. -/
theorem conversation_creation_preserves_unordered_unique_witness :
    ∃ newConv,
      (fetchMessagesV1
          { profiles := [{ id := "U2", username := "u2", full_name := "U Two" }],
            conversations := [{ id := "c0", participant1_id := "U1", participant2_id := "U3" }],
            messages := [] }
          "U1" "U2" "cNew").insertedConv = some newConv
      ∧ newConv.participant1_id = "U1" ∧ newConv.participant2_id = "U2"
      ∧ conversationsUnorderedUnique
          ([{ id := "c0", participant1_id := "U1", participant2_id := "U3" }] ++ [newConv]) :=
  conversation_creation_preserves_unordered_unique
    { profiles := [{ id := "U2", username := "u2", full_name := "U Two" }],
      conversations := [{ id := "c0", participant1_id := "U1", participant2_id := "U3" }],
      messages := [] }
    "U1" "U2" "cNew" (by decide) (by decide) (by decide) (by decide)
    (by unfold conversationsUnorderedUnique; decide)

/-- C2: evaluating the `create_notification` trigger's like-branch at a like
on a comment (comment `c1` authored by `alice`, liked by `bob`): the trigger
inserts a row with type `'like'`, a NULL `post_id` and a non-NULL
`comment_id`, and that row violates the notifications target CHECK, which
requires `post_id IS NOT NULL` for type `'like'`.  The trigger therefore
contradicts the table's own constraint. -/
theorem create_notification_comment_like_violates_check :
    createNotificationOnLike []
        [{ id := "c1", post_id := "p1", user_id := "alice" }]
        { id := "l1", user_id := "bob", post_id := none, comment_id := some "c1" }
      = [{ recipient_id := "alice", user_id := "bob", type := "like",
           comment_id := some "c1" }]
    ∧ notifTargetCheck
        { recipient_id := "alice", user_id := "bob", type := "like",
          comment_id := some "c1" } = false
    ∧ notifTypeCheck
        { recipient_id := "alice", user_id := "bob", type := "like",
          comment_id := some "c1" } = true := by
  decide

/-- C7: while mounted, the home screen owns the single process-wide badge
slot (cleared to `undefined` on unmount); calling the registered function
with an explicit count sets the badge to that count without querying the
store, additionally marking all of the current user's unread notifications
read exactly when the count is 0 (after which the unread count really is
0); calling it with no argument re-queries and sets the unread count. -/
theorem badge_slot_behavior :
    (∀ notifs me slot, mountHomeBadgeSlot notifs me slot
        = some (updateNotificationBadges notifs me))
    ∧ (∀ slot, unmountHomeBadgeSlot slot = none)
    ∧ (∀ notifs me n, (updateNotificationBadges notifs me (some n)).badge = n
        ∧ (updateNotificationBadges notifs me (some n)).dbQueried = false)
    ∧ (∀ notifs me n, n ≠ 0 →
        (updateNotificationBadges notifs me (some n)).notificationsAfter = notifs)
    ∧ (∀ notifs me,
        (updateNotificationBadges notifs me (some 0)).notificationsAfter
          = markAllUnreadRead notifs me
        ∧ countUnread (markAllUnreadRead notifs me) me = 0)
    ∧ (∀ notifs me, updateNotificationBadges notifs me none
        = { badge := countUnread notifs me, dbQueried := true,
            notificationsAfter := notifs }) := by
  refine ⟨fun _ _ _ => rfl, fun _ => rfl, fun _ _ _ => ⟨rfl, rfl⟩, ?_, ?_, fun _ _ => rfl⟩
  · intro notifs me n hn
    simp [updateNotificationBadges, hn]
  · intro notifs me
    refine ⟨rfl, ?_⟩
    unfold countUnread markAllUnreadRead
    rw [List.length_eq_zero]
    apply List.filter_eq_nil_iff.mpr
    intro a ha
    rcases List.mem_map.mp ha with ⟨n, _, hn⟩
    subst hn
    by_cases hrm : n.recipient_id = me
    · by_cases hrd : n.read = false
      · simp [hrm, hrd]
      · have hrt : n.read = true := by
          cases hb : n.read with
          | true => rfl
          | false => exact absurd hb hrd
        simp [hrm, hrt]
    · simp [hrm]

/-- Witness for C7: forcing the badge to 0 marks the one unread
notification of the current user as read. -/
theorem badge_slot_behavior_witness :
    (updateNotificationBadges
        [{ recipient_id := "me", user_id := "them", type := "follow" }]
        "me" (some 0)).notificationsAfter
      = markAllUnreadRead
          [{ recipient_id := "me", user_id := "them", type := "follow" }] "me"
    ∧ countUnread
        (markAllUnreadRead
          [{ recipient_id := "me", user_id := "them", type := "follow" }] "me") "me" = 0 :=
  badge_slot_behavior.2.2.2.2.1
    [{ recipient_id := "me", user_id := "them", type := "follow" }] "me"

/-- C9: when the composed message is empty or all whitespace, both
variants of the send handler return before doing anything: the component
state (message list, input text, sending flag) is unchanged and no backend
operation (conversation lookup or creation, message insert, last-message
update), alert, retry or navigation happens. -/
theorem send_noop_on_whitespace
    (db : Db) (me routeId freshConvId freshMsgId : String) (st : ChatState)
    (h : ∀ c ∈ st.newMessage.data, jsWhitespaceB c = true) :
    handleSendV1 db me routeId freshConvId freshMsgId st = { state := st, eff := {} }
    ∧ handleSendV2 db me routeId freshConvId freshMsgId st = { state := st, eff := {} } := by
  have ht := jsTrim_of_all_whitespace h
  unfold handleSendV1 handleSendV2
  rw [ht]
  simp

/-- Witness for C9 with a three-space draft message. -/
theorem send_noop_on_whitespace_witness :
    handleSendV1 { profiles := [], conversations := [], messages := [] }
        "me" "r" "c" "m" { messages := [], newMessage := "   ", sending := false }
      = { state := { messages := [], newMessage := "   ", sending := false }, eff := {} }
    ∧ handleSendV2 { profiles := [], conversations := [], messages := [] }
        "me" "r" "c" "m" { messages := [], newMessage := "   ", sending := false }
      = { state := { messages := [], newMessage := "   ", sending := false }, eff := {} } :=
  send_noop_on_whitespace
    { profiles := [], conversations := [], messages := [] }
    "me" "r" "c" "m" { messages := [], newMessage := "   ", sending := false }
    (by decide)

/-- C5: the first variant's send catch block schedules exactly one delayed
recursive re-invocation and shows no alert precisely when the error string
contains `PGRST116` or `The result contains 0 rows`, and shows an alert with
no retry on every other error; the second variant's catch block always
alerts and never retries. -/
theorem send_retry_classification (st : ChatState) (e : JsError) :
    (pgrstLike (errString e) = true →
        sendCatchV1 st e
          = { state := { st with sending := false }, eff := { retryScheduled := true } })
    ∧ (pgrstLike (errString e) = false →
        sendCatchV1 st e
          = { state := { st with sending := false },
              eff := { alert := some ("Failed to send message: " ++ e.message) } })
    ∧ (sendCatchV2 st e).eff.retryScheduled = false
    ∧ (sendCatchV2 st e).eff.alert = some ("Failed to send message: " ++ e.message) := by
  refine ⟨?_, ?_, rfl, rfl⟩ <;> intro h <;> simp [sendCatchV1, h]

/-- Witness for C5 at a `PGRST116` error string. -/
theorem send_retry_classification_witness :
    sendCatchV1 { messages := [], newMessage := "hi", sending := true }
        ⟨"PGRST116: The result contains 0 rows"⟩
      = { state := { messages := [], newMessage := "hi", sending := false },
          eff := { retryScheduled := true } } :=
  (send_retry_classification
      { messages := [], newMessage := "hi", sending := true }
      ⟨"PGRST116: The result contains 0 rows"⟩).1 (by decide)

/-- C8: for an existing conversation whose two participants do not include
the session user, both variants of `fetchMessages` raise the error
`'You are not authorized to view this conversation'` and never place any
messages of that conversation in local state (the first variant alerts that
same text, the second its generic failure text). -/
theorem fetch_unauthorized
    (db : Db) (me routeId freshConvId : String) (conv : Conversation)
    (hu : isUUID routeId = true) (hc : lookupConv db routeId = some conv)
    (h1 : conv.participant1_id ≠ me) (h2 : conv.participant2_id ≠ me) :
    fetchMessagesV1 db me routeId freshConvId
      = { thrown := some "You are not authorized to view this conversation",
          alert := some "You are not authorized to view this conversation" }
    ∧ fetchMessagesV2 db me routeId
      = { thrown := some "You are not authorized to view this conversation",
          alert := some "Failed to load messages. Please try again." } := by
  unfold fetchMessagesV1 fetchMessagesV2
  rw [hu, hc]
  simp [h1, h2]

/-- Witness for C8 on a concrete conversation between two other users. -/
theorem fetch_unauthorized_witness :
    fetchMessagesV1
        { profiles := [],
          conversations := [{ id := "11111111-2222-3333-4444-555555555555",
                              participant1_id := "A", participant2_id := "B" }],
          messages := [] }
        "Z" "11111111-2222-3333-4444-555555555555" "f"
      = { thrown := some "You are not authorized to view this conversation",
          alert := some "You are not authorized to view this conversation" }
    ∧ fetchMessagesV2
        { profiles := [],
          conversations := [{ id := "11111111-2222-3333-4444-555555555555",
                              participant1_id := "A", participant2_id := "B" }],
          messages := [] }
        "Z" "11111111-2222-3333-4444-555555555555"
      = { thrown := some "You are not authorized to view this conversation",
          alert := some "Failed to load messages. Please try again." } :=
  fetch_unauthorized
    { profiles := [],
      conversations := [{ id := "11111111-2222-3333-4444-555555555555",
                          participant1_id := "A", participant2_id := "B" }],
      messages := [] }
    "Z" "11111111-2222-3333-4444-555555555555" "f"
    { id := "11111111-2222-3333-4444-555555555555",
      participant1_id := "A", participant2_id := "B" }
    (by decide) (by decide) (by decide) (by decide)

/-- C10: every message placed in local state, by either variant's fetch
processing or either variant's real-time handler, carries the sender
profile when the lookup finds one and the placeholder sender
`{id, 'Unknown User', 'Unknown'}` otherwise; in particular a raw fetch row
whose sender profile is missing is still included, with the placeholder. -/
theorem messages_have_total_sender (db : Db) :
    (∀ raw m, m ∈ processedMessagesV1 db raw →
        m.sender = (lookupProfile db m.sender_id).getD (placeholderSender m.sender_id))
    ∧ (∀ raw m, m ∈ processedMessagesV2 db raw →
        m.sender = (lookupProfile db m.sender_id).getD (placeholderSender m.sender_id))
    ∧ (∀ msgs new m, m ∈ rtInsertV1 db msgs new → m ∈ msgs ∨
        m.sender = (lookupProfile db m.sender_id).getD (placeholderSender m.sender_id))
    ∧ (∀ msgs new m, m ∈ rtInsertV2 db msgs new → m ∈ msgs ∨
        m.sender = (lookupProfile db m.sender_id).getD (placeholderSender m.sender_id))
    ∧ (∀ raw mr, mr ∈ raw → mr.content ≠ "" → lookupProfile db mr.sender_id = none →
        processMessage db mr ∈ processedMessagesV1 db raw
        ∧ (processMessage db mr).sender = placeholderSender mr.sender_id) := by
  refine ⟨?_, ?_, ?_, ?_, ?_⟩
  · intro raw m hm
    rcases List.mem_map.mp hm with ⟨mr, _, hme⟩
    subst hme
    rfl
  · intro raw m hm
    rcases List.mem_map.mp hm with ⟨mr, _, hme⟩
    subst hme
    rfl
  · intro msgs new m hm
    unfold rtInsertV1 at hm
    by_cases hv : (new.id = "" || new.content = "") = true
    · rw [if_pos hv] at hm
      exact Or.inl hm
    · rw [if_neg hv] at hm
      by_cases hd : msgs.any (fun m => m.id = new.id) = true
      · rw [if_pos hd] at hm
        exact Or.inl hm
      · rw [if_neg hd] at hm
        rcases List.mem_append.mp hm with h | h
        · exact Or.inl h
        · right
          rw [List.mem_singleton.mp h]
          rfl
  · intro msgs new m hm
    rcases List.mem_append.mp hm with h | h
    · exact Or.inl h
    · right
      rw [List.mem_singleton.mp h]
      rfl
  · intro raw mr hmr hc hnone
    constructor
    · apply List.mem_map.mpr
      exact ⟨mr, List.mem_filter.mpr ⟨hmr, by simpa using hc⟩, rfl⟩
    · unfold processMessage
      rw [hnone]
      rfl

/-- Witness for C10: a message whose sender profile is absent from the
store is still included, with the placeholder sender. -/
theorem messages_have_total_sender_witness :
    processMessage { profiles := [], conversations := [], messages := [] }
        { id := "m1", conversation_id := "c1", sender_id := "ghost",
          content := "hello", created_at := "t" }
      ∈ processedMessagesV1 { profiles := [], conversations := [], messages := [] }
          [{ id := "m1", conversation_id := "c1", sender_id := "ghost",
             content := "hello", created_at := "t" }]
    ∧ (processMessage { profiles := [], conversations := [], messages := [] }
        { id := "m1", conversation_id := "c1", sender_id := "ghost",
          content := "hello", created_at := "t" }).sender = placeholderSender "ghost" :=
  (messages_have_total_sender
      { profiles := [], conversations := [], messages := [] }).2.2.2.2
    [{ id := "m1", conversation_id := "c1", sender_id := "ghost",
       content := "hello", created_at := "t" }]
    { id := "m1", conversation_id := "c1", sender_id := "ghost",
      content := "hello", created_at := "t" }
    (by simp) (by decide) (by decide)

/-- An empty store, a raw message row, and a local list already holding the
processed form of that row. -/
def rtDb : Db := { profiles := [], conversations := [], messages := [] }

/-- Raw real-time payload used in the C4 counterexample. -/
def rtRow : MessageRow :=
  { id := "m1", conversation_id := "c1", sender_id := "u1",
    content := "hi", created_at := "t1" }

/-- Local message list already containing the payload's id. -/
def rtMsgs : List Msg := [processMessage rtDb rtRow]

/-- C4 counterexample: in the second chat variant, a real-time insert whose
id is already present in the local list is appended again instead of being
skipped, so the claimed identifier-based duplicate suppression does not
hold for both variants. -/
theorem rt_insert_v2_has_no_dedup :
    rtMsgs.any (fun m => m.id = rtRow.id) = true
    ∧ rtInsertV2 rtDb rtMsgs rtRow ≠ rtMsgs := by
  decide

/-- C4 (amended): in the first chat variant a real-time insert with
non-empty id and content is appended at the end of the local list unless a
message with the same id is already present, in which case it is skipped
(payloads with empty id or content are also skipped); in the second variant
every insert is appended at the end with no duplicate suppression at all. -/
theorem rt_insert_behavior (db : Db) (msgs : List Msg) (new : MessageRow) :
    (new.id ≠ "" → new.content ≠ "" → msgs.any (fun m => m.id = new.id) = false →
        rtInsertV1 db msgs new = msgs ++ [processMessage db new])
    ∧ (msgs.any (fun m => m.id = new.id) = true → rtInsertV1 db msgs new = msgs)
    ∧ (new.id = "" ∨ new.content = "" → rtInsertV1 db msgs new = msgs)
    ∧ rtInsertV2 db msgs new = msgs ++ [processMessage db new] := by
  refine ⟨?_, ?_, ?_, rfl⟩
  · intro hid hct hd
    unfold rtInsertV1
    rw [if_neg (by simp [hid, hct]), if_neg (by simp [hd])]
  · intro hd
    unfold rtInsertV1
    by_cases hv : (new.id = "" || new.content = "") = true
    · rw [if_pos hv]
    · rw [if_neg hv, if_pos hd]
  · intro hv
    unfold rtInsertV1
    rcases hv with h | h <;> rw [if_pos (by simp [h])]

/-- Witness for the amended C4: a fresh insert is appended at the end. -/
theorem rt_insert_behavior_witness :
    rtInsertV1 rtDb []
        { id := "m2", conversation_id := "c1", sender_id := "u1",
          content := "yo", created_at := "t2" }
      = [] ++ [processMessage rtDb
          { id := "m2", conversation_id := "c1", sender_id := "u1",
            content := "yo", created_at := "t2" }] :=
  (rt_insert_behavior rtDb []
      { id := "m2", conversation_id := "c1", sender_id := "u1",
        content := "yo", created_at := "t2" }).1
    (by decide) (by decide) (by decide)

/-- C1: the chat screen's message loading is a fixed sequence of heuristic
checks on the route parameter.  The user-verification step promotes exactly
the `PGRST116` error code to a thrown 'not found' error and swallows every
other error code; a non-UUID parameter with no matching profile fails with
that error; a non-UUID parameter with a matching profile looks up an
existing conversation in either participant order and navigates to it, or
else inserts a fresh conversation row between the current user and that
user and navigates to it; a UUID parameter is treated as a conversation id
whose row is fetched directly (no profile verification, no conversation
creation, no navigation). -/
theorem fetch_resolution_sequence :
    (verifyUserThrow (Except.error "PGRST116")
        = some "User not found. Please check the user ID.")
    ∧ (∀ code : String, code ≠ "PGRST116" → verifyUserThrow (Except.error code) = none)
    ∧ (∀ db me uid f, isUUID uid = false → lookupProfile db uid = none →
        fetchMessagesV1 db me uid f
          = { thrown := some "User not found. Please check the user ID.",
              alert := some "User not found. Please check the user ID." })
    ∧ (∀ db me uid f conv, isUUID uid = false → lookupProfile db uid ≠ none → me ≠ "" →
        findConvBetween db me uid = some conv →
        fetchMessagesV1 db me uid f = { messagesSet := some [], navTo := some conv.id })
    ∧ (∀ db me uid f, isUUID uid = false → lookupProfile db uid ≠ none → me ≠ "" →
        findConvBetween db me uid = none →
        fetchMessagesV1 db me uid f
          = { messagesSet := some [],
              insertedConv := some { id := f, participant1_id := me,
                                     participant2_id := uid, last_message := some "" },
              navTo := some f })
    ∧ (∀ db me cid f, isUUID cid = true →
        (fetchMessagesV1 db me cid f).insertedConv = none
        ∧ (fetchMessagesV1 db me cid f).navTo = none
        ∧ (lookupConv db cid = none → fetchMessagesV1 db me cid f = { messagesSet := some [] })
        ∧ (∀ conv, lookupConv db cid = some conv →
            (conv.participant1_id = me ∨ conv.participant2_id = me) →
            (fetchMessagesV1 db me cid f).messagesSet
              = some (if (fetchedMessages db cid).isEmpty then []
                      else processedMessagesV1 db (fetchedMessages db cid)))) := by
  refine ⟨rfl, ?_, ?_, ?_, ?_, ?_⟩
  · intro code hc
    simp [verifyUserThrow, hc]
  · intro db me uid f hu hp
    unfold fetchMessagesV1 profilesSingle
    rw [hu, hp]
    rfl
  · intro db me uid f conv hu hp hme hfc
    obtain ⟨pr, hpr⟩ := Option.ne_none_iff_exists.mp hp
    unfold fetchMessagesV1 profilesSingle verifyUserThrow
    rw [hu, ← hpr]
    simp [hme, hfc]
  · intro db me uid f hu hp hme hfc
    obtain ⟨pr, hpr⟩ := Option.ne_none_iff_exists.mp hp
    unfold fetchMessagesV1 profilesSingle verifyUserThrow
    rw [hu, ← hpr]
    simp [hme, hfc]
  · intro db me cid f hu
    unfold fetchMessagesV1
    rw [hu]
    refine ⟨?_, ?_, ?_, ?_⟩
    · cases hc : lookupConv db cid with
      | none => rfl
      | some conv =>
        by_cases hp : (conv.participant1_id = me || conv.participant2_id = me) = true
        · simp only [hp, if_true]
          by_cases hre : (fetchedMessages db cid).isEmpty
          · simp [hre]
          · simp [hre]
        · simp [hp]
    · cases hc : lookupConv db cid with
      | none => rfl
      | some conv =>
        by_cases hp : (conv.participant1_id = me || conv.participant2_id = me) = true
        · simp only [hp, if_true]
          by_cases hre : (fetchedMessages db cid).isEmpty
          · simp [hre]
          · simp [hre]
        · simp [hp]
    · intro hc
      rw [hc]
      rfl
    · intro conv hc hp
      rw [hc]
      have hpb : (conv.participant1_id = me || conv.participant2_id = me) = true := by
        rcases hp with h | h <;> simp [h]
      simp only [hpb, if_true]
      by_cases hre : (fetchedMessages db cid).isEmpty
      · simp [hre]
      · simp [hre]

/-- Witness for C1: a non-UUID route parameter with no matching profile
fails with the 'User not found' error. -/
theorem fetch_resolution_sequence_witness :
    fetchMessagesV1 { profiles := [], conversations := [], messages := [] }
        "me" "user9" "f"
      = { thrown := some "User not found. Please check the user ID.",
          alert := some "User not found. Please check the user ID." } :=
  fetch_resolution_sequence.2.2.1
    { profiles := [], conversations := [], messages := [] }
    "me" "user9" "f" (by decide) (by decide)

end SocialApp
